import Mathlib

/-!
Verification development for the RLM bridge server
(`src/rlm_bridge/server.py`).

The server is shallowly embedded: request bodies, message turns and
configuration values are JSON-like values (`JVal`, integers model JSON
numbers; floats do not occur in any property considered here), Python
statements that can raise are functions into `Except PyErr`, and the
opaque external RLM engine is a parameter (`EngineBehavior`).  The text
of Python exception messages is modelled up to the exact wording; the
exception class and the fact that it is raised are faithful.
-/

/-- A JSON-like Python value, as produced by `request.get_json()`. -/
inductive JVal where
  | null : JVal
  | bool : Bool → JVal
  | num : Int → JVal
  | str : String → JVal
  | arr : List JVal → JVal
  | obj : List (String × JVal) → JVal

/-- A raised Python exception, carrying the text that `str(e)` yields. -/
inductive PyErr where
  | attributeError (msg : String)
  | typeError (msg : String)
  | valueError (msg : String)
  | importError (msg : String)
  | indexError (msg : String)
  | keyError (msg : String)
deriving DecidableEq

/-- The text `str(e)` of a raised exception. -/
def PyErr.msg : PyErr → String
  | .attributeError m => m
  | .typeError m => m
  | .valueError m => m
  | .importError m => m
  | .indexError m => m
  | .keyError m => m

/-- Python `type(v).__name__` for the modelled values. -/
def pyTypeName : JVal → String
  | .null => "NoneType"
  | .bool _ => "bool"
  | .num _ => "int"
  | .str _ => "str"
  | .arr _ => "list"
  | .obj _ => "dict"

/-- Python truthiness: `bool(v)` is `False` exactly on these values. -/
def pyFalsy : JVal → Bool
  | .null => true
  | .bool b => !b
  | .num n => n == 0
  | .str s => s == ""
  | .arr xs => xs.isEmpty
  | .obj kvs => kvs.isEmpty

mutual
/-- Python `repr(v)` (string quoting is modelled without escaping,
which no property here depends on). -/
def pyRepr : JVal → String
  | .null => "None"
  | .bool true => "True"
  | .bool false => "False"
  | .num n => toString n
  | .str s => "\x27" ++ s ++ "\x27"
  | .arr xs => "[" ++ String.intercalate ", " (pyReprList xs) ++ "]"
  | .obj kvs => "\x7b" ++ String.intercalate ", " (pyReprObj kvs) ++ "\x7d"

def pyReprList : List JVal → List String
  | [] => []
  | x :: xs => pyRepr x :: pyReprList xs

def pyReprObj : List (String × JVal) → List String
  | [] => []
  | (k, v) :: kvs => ("\x27" ++ k ++ "\x27: " ++ pyRepr v) :: pyReprObj kvs
end

/-- Python `str(v)`, as used by f-string interpolation. -/
def pyStr : JVal → String
  | .str s => s
  | v => pyRepr v

/-- Python `v.get(key, default)`: succeeds on dicts (returning the stored
value even when it is `null`), raises `AttributeError` otherwise. -/
def getAttrDefault (v : JVal) (key : String) (dflt : JVal) : Except PyErr JVal :=
  match v with
  | .obj kvs => .ok ((kvs.lookup key).getD dflt)
  | _ =>
    .error (.attributeError
      ("\x27" ++ pyTypeName v ++ "\x27 object has no attribute \x27get\x27"))

/-- Python `str.upper()` on the string itself (ASCII case mapping, which
is all the roles exercised here use). -/
def pyUpper (s : String) : String := String.mk (s.data.map Char.toUpper)

/-- Python `v.upper()`: succeeds on strings, raises `AttributeError`
otherwise. -/
def strUpper (v : JVal) : Except PyErr String :=
  match v with
  | .str s => .ok (pyUpper s)
  | _ =>
    .error (.attributeError
      ("\x27" ++ pyTypeName v ++ "\x27 object has no attribute \x27upper\x27"))

/-- Python `v[:-1]`, returned as the list of items a `for` loop would
iterate over: lists and strings slice, dicts and scalars raise
`TypeError`. -/
def pySliceInit : JVal → Except PyErr (List JVal)
  | .arr xs => .ok xs.dropLast
  | .str s => .ok ((s.toList.dropLast).map (fun c => .str (String.singleton c)))
  | .obj _ => .error (.typeError "unhashable type: \x27slice\x27")
  | v =>
    .error (.typeError ("\x27" ++ pyTypeName v ++ "\x27 object is not subscriptable"))

/-- Python `v[-1]`. -/
def pyLastItem : JVal → Except PyErr JVal
  | .arr xs =>
    match xs.getLast? with
    | some x => .ok x
    | none => .error (.indexError "list index out of range")
  | .str s =>
    match s.toList.getLast? with
    | some c => .ok (.str (String.singleton c))
    | none => .error (.indexError "string index out of range")
  | .obj _ => .error (.keyError "-1")
  | v =>
    .error (.typeError ("\x27" ++ pyTypeName v ++ "\x27 object is not subscriptable"))

/-- Python `len(v)`: defined on strings, lists and dicts, `TypeError`
otherwise. -/
def pyLen : JVal → Except PyErr Int
  | .str s => .ok s.length
  | .arr xs => .ok xs.length
  | .obj kvs => .ok kvs.length
  | v =>
    .error (.typeError ("object of type \x27" ++ pyTypeName v ++ "\x27 has no len()"))

/-- Python `v[:100]`, as used on the query in the mock fallback. -/
def pySlice100 : JVal → Except PyErr JVal
  | .str s => .ok (.str (s.take 100))
  | .arr xs => .ok (.arr (xs.take 100))
  | .obj _ => .error (.typeError "unhashable type: \x27slice\x27")
  | v =>
    .error (.typeError ("\x27" ++ pyTypeName v ++ "\x27 object is not subscriptable"))

/-!  The message adapter (`messages_to_context`, server.py lines 62-85). -/

/-- One iteration of the context-building loop: renders a turn as
`"[<role.upper()>]: <content>"`, raising exactly where Python would
(non-dict turn, non-string role). -/
def renderTurn (msg : JVal) : Except PyErr String :=
  match getAttrDefault msg "role" (.str "user") with
  | .error e => .error e
  | .ok role =>
    match strUpper role with
    | .error e => .error e
    | .ok roleU =>
      match getAttrDefault msg "content" (.str "") with
      | .error e => .error e
      | .ok content => .ok ("[" ++ roleU ++ "]: " ++ pyStr content)

/-- The `for msg in messages[:-1]` loop body, left to right, stopping at
the first raised exception. -/
def renderTurns : List JVal → Except PyErr (List String)
  | [] => .ok []
  | msg :: rest =>
    match renderTurn msg with
    | .error e => .error e
    | .ok s =>
      match renderTurns rest with
      | .error e => .error e
      | .ok ss => .ok (s :: ss)

/-- `messages_to_context` (server.py lines 62-85).  The argument is the
raw value found under the `messages` key of the request body; the query
component is whatever value the last turn stores under `content`, which
Python does not coerce to a string. -/
def messages_to_context (messages : JVal) : Except PyErr (String × JVal) :=
  if pyFalsy messages then .ok ("", .str "")
  else
    match pySliceInit messages with
    | .error e => .error e
    | .ok initItems =>
      match renderTurns initItems with
      | .error e => .error e
      | .ok parts =>
        let context := String.intercalate "\n\n" parts
        match pyLastItem messages with
        | .error e => .error e
        | .ok last_msg =>
          match getAttrDefault last_msg "content" (.str "") with
          | .error e => .error e
          | .ok query => .ok (context, query)

/-- Spec-side rendering of a single well-formed turn, used to state the
adapter properties: role defaults to "user" when absent, content to "". -/
def renderTurnSpec (kvs : List (String × JVal)) : String :=
  "[" ++ pyUpper (match kvs.lookup "role" with
          | some (.str s) => s
          | _ => "user")
      ++ "]: " ++ pyStr ((kvs.lookup "content").getD (.str ""))

/-- A turn whose role field, when present, is a string. -/
def roleOk (kvs : List (String × JVal)) : Prop :=
  kvs.lookup "role" = none ∨ ∃ s, kvs.lookup "role" = some (.str s)

/-!  Process-wide configuration (server.py lines 31-43 and module top). -/

/-- The environment variables the server reads (`os.getenv`); `none`
models an unset variable. -/
structure Env where
  RLM_BACKEND : Option String := none
  RLM_MODEL : Option String := none
  RLM_MAX_RECURSION : Option String := none
  OPENROUTER_API_KEY : Option String := none
  OPENAI_API_KEY : Option String := none
  ANTHROPIC_API_KEY : Option String := none

/-- Python `int(s)`: optional surrounding whitespace, an optional sign,
then decimal digits; anything else raises `ValueError`.  (Numeric
underscores are not modelled; no property here uses them.) -/
def pyIntParse (s : String) : Except PyErr Int :=
  let t := ((s.data.dropWhile Char.isWhitespace).reverse.dropWhile Char.isWhitespace).reverse
  let sd : Int × List Char :=
    match t with
    | '-' :: rest => (-1, rest)
    | '+' :: rest => (1, rest)
    | _ => (1, t)
  if sd.2 ≠ [] ∧ sd.2.all Char.isDigit then
    .ok (sd.1 * (sd.2.foldl (fun acc c => acc * 10 + (c.toNat - 48)) 0 : Nat))
  else
    .error (.valueError ("invalid literal for int() with base 10: \x27" ++ s ++ "\x27"))

/-- The module-level defaults `DEFAULT_BACKEND`, `DEFAULT_MODEL`,
`DEFAULT_MAX_RECURSION` computed at import time. -/
structure ServerGlobals where
  default_backend : String
  default_model : String
  default_max_recursion : Int

/-- The module top-level statements: `os.getenv` with hardcoded
fallbacks, and `int(...)` for the recursion depth (which can raise
while the module loads, on an unparseable variable). -/
def initGlobals (env : Env) : Except PyErr ServerGlobals :=
  match pyIntParse (env.RLM_MAX_RECURSION.getD "10") with
  | .error e => .error e
  | .ok n =>
    .ok { default_backend := env.RLM_BACKEND.getD "openrouter"
          default_model := env.RLM_MODEL.getD "google/gemini-3-flash-preview"
          default_max_recursion := n }

/-- `RlmConfig` (server.py lines 36-43).  A Python dataclass performs no
runtime type checking, so each field holds whatever value the request
supplied; the dataclass defaults are never used because `completion`
always passes all four fields explicitly. -/
structure RlmConfig where
  backend : JVal
  model_name : JVal
  max_recursion_depth : JVal
  environment : JVal

/-- The config-resolution block of `completion` (server.py lines
214-221): four `rlm_config_data.get(key, DEFAULT)` calls, each raising
`AttributeError` when `rlmConfig` was present but not a dict. -/
def resolveConfig (g : ServerGlobals) (rlm_config_data : JVal) : Except PyErr RlmConfig :=
  match getAttrDefault rlm_config_data "backend" (.str g.default_backend) with
  | .error e => .error e
  | .ok backend =>
    match getAttrDefault rlm_config_data "modelName" (.str g.default_model) with
    | .error e => .error e
    | .ok model_name =>
      match getAttrDefault rlm_config_data "maxRecursionDepth" (.num g.default_max_recursion) with
      | .error e => .error e
      | .ok max_recursion_depth =>
        match getAttrDefault rlm_config_data "environment" (.str "local") with
        | .error e => .error e
        | .ok environment =>
          .ok { backend, model_name, max_recursion_depth, environment }

/-!  The engine side (server.py lines 88-174). -/

/-- The usage summary object an engine result may carry; `none` models
an attribute that is absent or `None` (both make `getattr(..., 0) or`
fall through identically). -/
structure UsageSummary where
  prompt_tokens : Option Int := none
  completion_tokens : Option Int := none
  input_tokens : Option Int := none
  output_tokens : Option Int := none

/-- The opaque result object returned by `rlm.completion(...)`:
`response` is the final text, the remaining attributes are probed with
`getattr` defaults. -/
structure RlmResult where
  response : String
  usage_summary : Option UsageSummary := none
  depth : Option Int := none
  execution_time : Option Int := none

/-- The external engine: either `from rlm import RLM` fails
(`ImportError`), or the library is present and an invocation with
`(backend, backend_kwargs, max_depth, prompt)` yields a result or
raises. -/
inductive EngineBehavior where
  | unavailable : EngineBehavior
  | run : (JVal → List (String × JVal) → JVal → JVal → Except PyErr RlmResult) → EngineBehavior

/-- The API-key chain of `run_rlm_completion` (server.py lines 96-103):
one credential slot per known backend, `None` otherwise. -/
def backend_api_key (env : Env) (backend : JVal) : Option String :=
  match backend with
  | .str "openrouter" => env.OPENROUTER_API_KEY
  | .str "openai" => env.OPENAI_API_KEY
  | .str "anthropic" => env.ANTHROPIC_API_KEY
  | _ => none

/-- The prompt construction of `run_rlm_completion` (server.py lines
111-120): a non-empty context is wrapped in the fixed two-section
template; an empty one leaves the query value untouched. -/
def full_prompt_of (context : String) (query : JVal) : JVal :=
  if context ≠ "" then
    .str ("Previous conversation context:\n" ++ context
          ++ "\n\nCurrent request:\n" ++ pyStr query)
  else query

/-- Python `a or b` on the probed token counts (both already defaulted
to integers): keeps `a` unless it is falsy, i.e. `0`. -/
def pyOrInt (a b : Int) : Int := if a = 0 then b else a

/-- `CompletionResponse` (server.py lines 54-59). -/
structure CompletionResponse where
  text : String
  usage : Option JVal := none
  metadata : Option JVal := none

/-- The usage dict built from a present `usage_summary` (server.py
lines 150-158): each target field takes the first truthy value among
the two naming conventions, with `getattr` defaulting to 0. -/
def usageOfSummary (us : UsageSummary) : JVal :=
  .obj [("promptTokens", .num (pyOrInt (us.prompt_tokens.getD 0) (us.input_tokens.getD 0))),
        ("completionTokens", .num (pyOrInt (us.completion_tokens.getD 0) (us.output_tokens.getD 0)))]

/-- The success-path normalization of `run_rlm_completion` (server.py
lines 146-163): `usage` stays the empty dict when no usage summary is
present, and the metadata fields default to 0. -/
def normalizeResult (result : RlmResult) : CompletionResponse :=
  let usage : JVal :=
    match result.usage_summary with
    | none => .obj []
    | some us => usageOfSummary us
  { text := result.response
    usage := some usage
    metadata := some (.obj [("recursionDepth", .num (result.depth.getD 0)),
                            ("executionTime", .num (result.execution_time.getD 0))]) }

/-- `run_rlm_completion` (server.py lines 88-174).  The `try` body runs
in order: the engine import, API-key and kwargs assembly, prompt
construction, the `len(query)` and `len(full_prompt)` logging calls
(which raise `TypeError` on non-sized values — `len(context)` cannot
raise since the adapter always builds a string), the engine invocation,
then normalization.  `os.chdir` and the `verbose=True` flag have no
modelled effect.  An `ImportError` from anywhere in the body is caught
and turned into the mock fallback, whose own `query[:100]` slice can
itself raise; every other exception is re-raised unchanged. -/
def run_rlm_completion (env : Env) (engine : EngineBehavior)
    (context : String) (query : JVal) (config : RlmConfig) :
    Except PyErr CompletionResponse :=
  let attempt : Except PyErr CompletionResponse :=
    match engine with
    | .unavailable => .error (.importError "No module named \x27rlm\x27")
    | .run f =>
      let api_key := backend_api_key env config.backend
      let backend_kwargs : List (String × JVal) :=
        ("model_name", config.model_name) ::
          (match api_key with
           | some k => if k ≠ "" then [("api_key", JVal.str k)] else []
           | none => [])
      let full_prompt := full_prompt_of context query
      match pyLen query with
      | .error e => .error e
      | .ok _ =>
        match pyLen full_prompt with
        | .error e => .error e
        | .ok _ =>
          match f config.backend backend_kwargs config.max_recursion_depth full_prompt with
          | .error e => .error e
          | .ok result => .ok (normalizeResult result)
  match attempt with
  | .error (.importError _) =>
    match pySlice100 query with
    | .error e => .error e
    | .ok q100 =>
      .ok { text := "[RLM MOCK] Would process query: " ++ pyStr q100 ++ "..."
            usage := none
            metadata := some (.obj [("mock", .bool true)]) }
  | other => other

/-!  Serialization and the HTTP endpoint (server.py lines 197-235). -/

/-- `None` becomes JSON `null`; `asdict` keeps every dataclass field. -/
def optJ : Option JVal → JVal
  | none => JVal.null
  | some v => v

/-- `jsonify(asdict(response))` (server.py line 231): all three fields
are always present in the serialized object. -/
def serializeResponse (r : CompletionResponse) : JVal :=
  .obj [("text", .str r.text), ("usage", optJ r.usage), ("metadata", optJ r.metadata)]

/-- Reads an optional serialized field back: JSON `null` and a missing
key both mean the field is absent. -/
def joptField : Option JVal → Option JVal
  | some .null => none
  | some v => some v
  | none => none

/-- Modelled from the spec: the repository holds no deserializer for
`CompletionResult` — the consuming Pi extension is outside `src/` — so
the round-trip property of §8 is read against the evident inverse of
the serialized form (`text` mandatory, `usage`/`metadata` absent when
missing or `null`). -/
def deserializeResponse : JVal → Option CompletionResponse
  | .obj kvs =>
    match kvs.lookup "text" with
    | some (.str t) =>
      some { text := t
             usage := joptField (kvs.lookup "usage")
             metadata := joptField (kvs.lookup "metadata") }
    | _ => none
  | _ => none

/-- The body of the `try` block of the `completion` endpoint (server.py
lines 204-231).  `body` is what `request.get_json()` returned (`none`
models a missing body).  Validation happens before the orchestrator; a
`200` carries the serialized response. -/
def completion_try (g : ServerGlobals) (env : Env) (engine : EngineBehavior)
    (body : Option JVal) : Except PyErr (Nat × JVal) :=
  match body with
  | none => .ok (400, .obj [("error", .str "No JSON body provided")])
  | some data =>
    if pyFalsy data then .ok (400, .obj [("error", .str "No JSON body provided")])
    else
      match getAttrDefault data "messages" (.arr []) with
      | .error e => .error e
      | .ok messages =>
        if pyFalsy messages then .ok (400, .obj [("error", .str "No messages provided")])
        else
          match getAttrDefault data "rlmConfig" (.obj []) with
          | .error e => .error e
          | .ok rlm_config_data =>
            match resolveConfig g rlm_config_data with
            | .error e => .error e
            | .ok config =>
              match messages_to_context messages with
              | .error e => .error e
              | .ok (context, query) =>
                match run_rlm_completion env engine context query config with
                | .error e => .error e
                | .ok response => .ok (200, serializeResponse response)

/-- The `completion` endpoint (server.py lines 197-235): any exception
escaping the `try` block becomes HTTP 500 with the exception text. -/
def completion_endpoint (g : ServerGlobals) (env : Env) (engine : EngineBehavior)
    (body : Option JVal) : Nat × JVal :=
  match completion_try g env engine body with
  | .ok r => r
  | .error e => (500, .obj [("error", .str e.msg)])

/-!  Helper lemmas about the adapter on well-formed turn lists. -/

theorem renderTurn_obj (kvs : List (String × JVal)) (h : roleOk kvs) :
    renderTurn (.obj kvs) = .ok (renderTurnSpec kvs) := by
  rcases h with h | ⟨s, h⟩ <;>
    simp [renderTurn, getAttrDefault, strUpper, renderTurnSpec, h]

theorem renderTurns_map (kvss : List (List (String × JVal)))
    (h : ∀ kvs ∈ kvss, roleOk kvs) :
    renderTurns (kvss.map JVal.obj) = .ok (kvss.map renderTurnSpec) := by
  induction kvss with
  | nil => rfl
  | cons kvs rest ih =>
    have hk : roleOk kvs := h kvs (by simp)
    have hrest : ∀ k ∈ rest, roleOk k := fun k hk2 => h k (by simp [hk2])
    simp [renderTurns, renderTurn_obj kvs hk, ih hrest]

theorem messages_to_context_wf (first : List (List (String × JVal)))
    (last : List (String × JVal)) (h : ∀ kvs ∈ first, roleOk kvs) :
    messages_to_context (.arr ((first ++ [last]).map JVal.obj)) =
      .ok (String.intercalate "\n\n" (first.map renderTurnSpec),
           (last.lookup "content").getD (.str "")) := by
  have hmap : (first ++ [last]).map JVal.obj = first.map JVal.obj ++ [JVal.obj last] := by
    simp
  rw [messages_to_context, hmap]
  have hfalsy : pyFalsy (.arr (first.map JVal.obj ++ [JVal.obj last])) = false := by
    simp [pyFalsy]
  rw [hfalsy]
  simp only [pySliceInit, List.dropLast_concat, List.getLast?_concat,
    renderTurns_map first h, pyLastItem, getAttrDefault, if_neg]
  simp

/-!  Claim theorems. -/

/-- C1 (corrected): the adapter raises on a malformed turn instead of
degrading: a turn whose role is the integer 1 makes `role.upper()`
raise `AttributeError`, so `messages_to_context` is not total on
malformed input. -/
theorem C1_counterexample :
    messages_to_context (.arr [.obj [("role", .num 1)], .obj []]) =
      .error (.attributeError "\x27int\x27 object has no attribute \x27upper\x27") := rfl

/-- C1 (amended): `messages_to_context` never raises and returns a
(context, query) pair — with context a string — on every turn sequence
whose turns are all dictionaries and whose non-final turns have a
string role whenever one is present; on other malformed input it
raises (surfaced as HTTP 500), contrary to the never-throws claim. -/
theorem C1_adapter_total_on_dict_turns
    (kvss : List (List (String × JVal)))
    (h : ∀ kvs ∈ kvss.dropLast, roleOk kvs) :
    ∃ c q, messages_to_context (.arr (kvss.map JVal.obj)) = .ok (c, q) := by
  rcases List.eq_nil_or_concat kvss with rfl | ⟨first, last, rfl⟩
  · exact ⟨"", .str "", rfl⟩
  · have h' : ∀ kvs ∈ first, roleOk kvs := by
      intro kvs hkvs
      exact h kvs (by simpa [List.dropLast_concat] using hkvs)
    rw [show first.concat last = first ++ [last] from List.concat_eq_append first last,
      messages_to_context_wf first last h']
    exact ⟨_, _, rfl⟩

theorem C1_adapter_total_on_dict_turns_witness :
    ∃ c q, messages_to_context (.arr [.obj [("content", .str "hi")]]) = .ok (c, q) := by
  have h := C1_adapter_total_on_dict_turns [[("content", .str "hi")]] (by simp)
  simpa using h

/-- C2 (confirmed): on the empty sequence the adapter returns two empty
strings; on a well-formed non-empty sequence the query is the last
turn content (defaulting to the empty string) and the context is the
remaining turns rendered as labeled blocks joined by blank lines in
order — exactly one block per non-final turn. -/
theorem C2_adapter_functional_spec :
    messages_to_context (.arr []) = .ok ("", .str "") ∧
    ∀ (first : List (List (String × JVal))) (last : List (String × JVal)),
      (∀ kvs ∈ first, roleOk kvs) →
      messages_to_context (.arr ((first ++ [last]).map JVal.obj)) =
        .ok (String.intercalate "\n\n" (first.map renderTurnSpec),
             (last.lookup "content").getD (.str "")) ∧
      (first.map renderTurnSpec).length = first.length :=
  ⟨rfl, fun first last h => ⟨messages_to_context_wf first last h, by simp⟩⟩

theorem C2_adapter_functional_spec_witness :
    messages_to_context (.arr [.obj [("role", .str "user"), ("content", .str "Hi")],
      .obj [("role", .str "assistant"), ("content", .str "Hello")],
      .obj [("role", .str "user"), ("content", .str "What\x27s 2+2?")]]) =
      .ok ("[USER]: Hi\n\n[ASSISTANT]: Hello", .str "What\x27s 2+2?") := by
  have h := C2_adapter_functional_spec.2
    [[("role", JVal.str "user"), ("content", JVal.str "Hi")],
     [("role", JVal.str "assistant"), ("content", JVal.str "Hello")]]
    [("role", JVal.str "user"), ("content", JVal.str "What\x27s 2+2?")]
    (by
      intro kvs hk
      simp only [List.mem_cons, List.not_mem_nil, or_false] at hk
      rcases hk with rfl | rfl <;> exact Or.inr ⟨_, rfl⟩)
  exact h.1

/-- C3 (confirmed): with the engine unavailable, `run_rlm_completion`
succeeds with the deterministic mock result: metadata sets `mock =
true` and the text embeds the first 100 characters of the query. -/
theorem C3_engine_unavailable_mock (env : Env) (context : String) (s : String)
    (config : RlmConfig) :
    ∃ r, run_rlm_completion env .unavailable context (.str s) config = .ok r ∧
      r.metadata = some (.obj [("mock", .bool true)]) ∧
      ∃ pre post, r.text = pre ++ s.take 100 ++ post :=
  ⟨_, rfl, rfl, "[RLM MOCK] Would process query: ", "...", rfl⟩

/-- C4 (confirmed): an empty context leaves the query as the whole
prompt, and a non-empty context wraps context and query in the fixed
two-section template. -/
theorem C4_prompt_construction (context : String) (query : JVal) :
    (context = "" → full_prompt_of context query = query) ∧
    (context ≠ "" →
      full_prompt_of context query =
        .str ("Previous conversation context:\n" ++ context
              ++ "\n\nCurrent request:\n" ++ pyStr query)) := by
  constructor
  · intro h; simp [full_prompt_of, h]
  · intro h; simp [full_prompt_of, h]

theorem C4_prompt_construction_witness :
    full_prompt_of "" (.str "q") = .str "q" ∧
    full_prompt_of "c" (.str "q") =
      .str "Previous conversation context:\nc\n\nCurrent request:\nq" :=
  ⟨(C4_prompt_construction "" (.str "q")).1 rfl,
   (C4_prompt_construction "c" (.str "q")).2 (by decide)⟩

/-- C5 (confirmed): every resolved field is the per-request override
verbatim when the key is present in `rlmConfig` (including an
out-of-range recursion depth, passed through unvalidated), else the
process-wide default, which itself falls back to the hardcoded values
(backend "openrouter", model "google/gemini-3-flash-preview", depth 10,
environment "local") when the environment variables are unset. -/
theorem C5_config_resolution (env : Env) (g : ServerGlobals)
    (kvs : List (String × JVal)) (h : initGlobals env = .ok g) :
    resolveConfig g (.obj kvs) =
      .ok { backend := (kvs.lookup "backend").getD (.str g.default_backend)
            model_name := (kvs.lookup "modelName").getD (.str g.default_model)
            max_recursion_depth :=
              (kvs.lookup "maxRecursionDepth").getD (.num g.default_max_recursion)
            environment := (kvs.lookup "environment").getD (.str "local") } ∧
    g.default_backend = env.RLM_BACKEND.getD "openrouter" ∧
    g.default_model = env.RLM_MODEL.getD "google/gemini-3-flash-preview" ∧
    (env.RLM_MAX_RECURSION = none → g.default_max_recursion = 10) := by
  unfold initGlobals at h
  cases hp : pyIntParse (env.RLM_MAX_RECURSION.getD "10") with
  | error e => rw [hp] at h; cases h
  | ok n =>
    rw [hp] at h
    simp only [Except.ok.injEq] at h
    subst h
    refine ⟨rfl, rfl, rfl, fun hnone => ?_⟩
    rw [hnone] at hp
    rw [show pyIntParse ((none : Option String).getD "10") = .ok 10 from rfl] at hp
    injection hp with h'
    exact h'.symm

theorem C5_config_resolution_witness :
    resolveConfig ⟨"openrouter", "google/gemini-3-flash-preview", 10⟩
      (.obj [("maxRecursionDepth", .num (-5))]) =
      .ok ⟨.str "openrouter", .str "google/gemini-3-flash-preview",
           .num (-5), .str "local"⟩ := by
  have h := C5_config_resolution {} ⟨"openrouter", "google/gemini-3-flash-preview", 10⟩
    [("maxRecursionDepth", .num (-5))] rfl
  exact h.1

/-- C6 (confirmed): on engine success the usage fields are read with the
`prompt_tokens`/`completion_tokens` convention first, falling back to
`input_tokens`/`output_tokens` when the first is absent or zero and to
0 when both are, and the metadata recursion depth and execution time
default to 0 when the result lacks them. -/
theorem C6_success_normalization (env : Env) (context : String) (s : String)
    (config : RlmConfig) (r : RlmResult) (us : UsageSummary)
    (h : r.usage_summary = some us) :
    run_rlm_completion env (.run fun _ _ _ _ => .ok r) context (.str s) config =
      .ok { text := r.response
            usage := some (.obj [("promptTokens",
                .num (pyOrInt (us.prompt_tokens.getD 0) (us.input_tokens.getD 0))),
              ("completionTokens",
                .num (pyOrInt (us.completion_tokens.getD 0) (us.output_tokens.getD 0)))])
            metadata := some (.obj [("recursionDepth", .num (r.depth.getD 0)),
                                    ("executionTime", .num (r.execution_time.getD 0))]) } := by
  by_cases hc : context = "" <;>
    simp [run_rlm_completion, full_prompt_of, hc, pyLen, normalizeResult, usageOfSummary, h]

theorem C6_success_normalization_witness :
    run_rlm_completion {} (.run fun _ _ _ _ =>
        .ok { response := "ans",
              usage_summary := some { prompt_tokens := some 0, input_tokens := some 7,
                                      completion_tokens := some 4 } })
      "" (.str "q") { backend := .str "openrouter", model_name := .str "m",
                      max_recursion_depth := .num 10, environment := .str "local" } =
      .ok { text := "ans",
            usage := some (.obj [("promptTokens", .num 7), ("completionTokens", .num 4)]),
            metadata := some (.obj [("recursionDepth", .num 0), ("executionTime", .num 0)]) } := by
  have h := C6_success_normalization {} "" "q"
    { backend := .str "openrouter", model_name := .str "m",
      max_recursion_depth := .num 10, environment := .str "local" }
    { response := "ans",
      usage_summary := some { prompt_tokens := some 0, input_tokens := some 7,
                              completion_tokens := some 4 } }
    { prompt_tokens := some 0, input_tokens := some 7, completion_tokens := some 4 }
    rfl
  exact h.trans (by rfl)

/-- C7 (confirmed): when the engine invocation raises anything other
than an `ImportError` (engine not installed), `run_rlm_completion`
re-raises that very exception — the original detail is preserved, no
mock fallback is produced. -/
theorem C7_engine_error_propagation (env : Env) (context : String) (s : String)
    (config : RlmConfig) (e : PyErr) (h : ∀ m, e ≠ PyErr.importError m) :
    run_rlm_completion env (.run fun _ _ _ _ => .error e) context (.str s) config =
      .error e := by
  cases e <;>
    first
      | exact absurd rfl (h _)
      | (by_cases hc : context = "" <;>
          simp [run_rlm_completion, full_prompt_of, hc, pyLen])

theorem C7_engine_error_propagation_witness :
    run_rlm_completion {} (.run fun _ _ _ _ => .error (.valueError "provider rejected key"))
      "ctx" (.str "q") { backend := .str "openrouter", model_name := .str "m",
                         max_recursion_depth := .num 10, environment := .str "local" } =
      .error (.valueError "provider rejected key") :=
  C7_engine_error_propagation {} "ctx" "q"
    { backend := .str "openrouter", model_name := .str "m",
      max_recursion_depth := .num 10, environment := .str "local" }
    (.valueError "provider rejected key") (fun _ hm => PyErr.noConfusion hm)

/-- C8 (corrected): absent optional fields are not omitted from the
serialized form — `asdict` keeps every dataclass field, so a response
with no usage and no metadata still serializes with both keys present,
holding JSON `null`. -/
theorem C8_counterexample :
    ∃ kvs, serializeResponse { text := "hi" } = .obj kvs ∧
      kvs.lookup "usage" = some JVal.null ∧ kvs.lookup "metadata" = some JVal.null :=
  ⟨_, rfl, rfl, rfl⟩

theorem joptField_optJ (o : Option JVal) (h : o ≠ some JVal.null) :
    joptField (some (optJ o)) = o := by
  cases o with
  | none => rfl
  | some v => cases v <;> first | exact absurd rfl h | rfl

/-- C8 (amended): serializing then deserializing a `CompletionResult`
preserves every field (the optional fields are never the JSON `null`
value, which the code indeed never produces); absent optional fields
appear in the serialized form as explicit `null` values — all three
keys are always present — rather than being omitted. -/
theorem C8_roundtrip (r : CompletionResponse)
    (hu : r.usage ≠ some JVal.null) (hm : r.metadata ≠ some JVal.null) :
    deserializeResponse (serializeResponse r) = some r ∧
    ∃ kvs, serializeResponse r = .obj kvs ∧
      (kvs.lookup "text").isSome ∧ (kvs.lookup "usage").isSome ∧
      (kvs.lookup "metadata").isSome := by
  constructor
  · have hstep : deserializeResponse (serializeResponse r) =
        some { text := r.text, usage := joptField (some (optJ r.usage)),
               metadata := joptField (some (optJ r.metadata)) } := rfl
    rw [hstep, joptField_optJ r.usage hu, joptField_optJ r.metadata hm]
  · exact ⟨_, rfl, rfl, rfl, rfl⟩

theorem C8_roundtrip_witness :
    deserializeResponse (serializeResponse { text := "hi" }) =
      some { text := "hi", usage := none, metadata := none } :=
  (C8_roundtrip { text := "hi" } (fun h => Option.noConfusion h)
    (fun h => Option.noConfusion h)).1

/-- C9 (confirmed): a missing or falsy JSON body is rejected with 400
and "No JSON body provided"; a non-empty body whose messages are
missing or an empty list is rejected with 400 and "No messages
provided" — in both cases uniformly in the engine, which is therefore
never consulted; and any exception escaping the processing pipeline
becomes a 500 whose body carries the exception text. -/
theorem C9_request_validation (g : ServerGlobals) (env : Env)
    (engine : EngineBehavior) (body : Option JVal) :
    ((body = none ∨ ∃ v, body = some v ∧ pyFalsy v = true) →
      completion_endpoint g env engine body =
        (400, .obj [("error", .str "No JSON body provided")])) ∧
    (∀ kvs, body = some (.obj kvs) → kvs ≠ [] →
      (kvs.lookup "messages" = none ∨ kvs.lookup "messages" = some (.arr [])) →
      completion_endpoint g env engine body =
        (400, .obj [("error", .str "No messages provided")])) ∧
    (∀ e, completion_try g env engine body = .error e →
      completion_endpoint g env engine body = (500, .obj [("error", .str e.msg)])) := by
  refine ⟨?_, ?_, ?_⟩
  · rintro (rfl | ⟨v, rfl, hv⟩)
    · rfl
    · simp [completion_endpoint, completion_try, hv]
  · rintro kvs rfl hne hm
    have he : kvs.isEmpty = false := by simp [List.isEmpty_iff, hne]
    rcases hm with hm | hm <;>
      simp [completion_endpoint, completion_try, pyFalsy, he, getAttrDefault, hm]
  · intro e he
    simp [completion_endpoint, he]

theorem C9_request_validation_witness :
    completion_endpoint ⟨"openrouter", "google/gemini-3-flash-preview", 10⟩ {} .unavailable
        none = (400, .obj [("error", .str "No JSON body provided")]) ∧
    completion_endpoint ⟨"openrouter", "google/gemini-3-flash-preview", 10⟩ {} .unavailable
        (some (.obj [("messages", .arr [])])) =
      (400, .obj [("error", .str "No messages provided")]) ∧
    completion_endpoint ⟨"openrouter", "google/gemini-3-flash-preview", 10⟩ {} .unavailable
        (some (.obj [("messages", .str "x")])) =
      (500, .obj [("error",
        .str "\x27str\x27 object has no attribute \x27get\x27")]) :=
  ⟨(C9_request_validation _ _ _ _).1 (Or.inl rfl),
   (C9_request_validation _ _ _ _).2.1 [("messages", .arr [])] rfl
     (by simp) (Or.inr rfl),
   (C9_request_validation _ _ _ _).2.2
     (.attributeError "\x27str\x27 object has no attribute \x27get\x27") rfl⟩

/-- C10 (corrected): the top-level model field is ignored by everything
downstream, but it is not entirely without effect on the response: it
counts toward body non-emptiness, so the empty body and the body
holding only a model field draw different 400 error messages. -/
theorem C10_counterexample :
    completion_endpoint ⟨"openrouter", "google/gemini-3-flash-preview", 10⟩ {} .unavailable
        (some (.obj [])) ≠
      completion_endpoint ⟨"openrouter", "google/gemini-3-flash-preview", 10⟩ {} .unavailable
        (some (.obj [("model", .str "gpt-4")])) := by
  intro h
  rw [show completion_endpoint ⟨"openrouter", "google/gemini-3-flash-preview", 10⟩ {}
        .unavailable (some (.obj [])) =
      (400, .obj [("error", .str "No JSON body provided")]) from rfl,
    show completion_endpoint ⟨"openrouter", "google/gemini-3-flash-preview", 10⟩ {}
        .unavailable (some (.obj [("model", .str "gpt-4")])) =
      (400, .obj [("error", .str "No messages provided")]) from rfl] at h
  simp at h

/-- C10 (amended): whenever the request body is a non-empty JSON object
(so that it passes the body-presence check with or without the model
field), the top-level model field has no effect: two bodies that agree
on every key other than model produce identical responses — resolved
configuration, context/query and all; only rlmConfig.modelName selects
the model. -/
theorem C10_model_field_inert (g : ServerGlobals) (env : Env)
    (engine : EngineBehavior) (kvs1 kvs2 : List (String × JVal))
    (h1 : kvs1 ≠ []) (h2 : kvs2 ≠ [])
    (h : ∀ k, k ≠ "model" → kvs1.lookup k = kvs2.lookup k) :
    completion_endpoint g env engine (some (.obj kvs1)) =
      completion_endpoint g env engine (some (.obj kvs2)) := by
  have hm := h "messages" (by decide)
  have hr := h "rlmConfig" (by decide)
  have e1 : kvs1.isEmpty = false := by simp [List.isEmpty_iff, h1]
  have e2 : kvs2.isEmpty = false := by simp [List.isEmpty_iff, h2]
  simp only [completion_endpoint, completion_try, pyFalsy, e1, e2,
    getAttrDefault, hm, hr]

theorem C10_model_field_inert_witness :
    completion_endpoint ⟨"openrouter", "google/gemini-3-flash-preview", 10⟩ {} .unavailable
        (some (.obj [("messages", .arr []), ("model", .str "gpt-4")])) =
      completion_endpoint ⟨"openrouter", "google/gemini-3-flash-preview", 10⟩ {} .unavailable
        (some (.obj [("messages", .arr [])])) :=
  C10_model_field_inert _ {} _ _ _ (by simp) (by simp)
    (fun k hk => by
      have hb : (k == "model") = false := beq_eq_false_iff_ne.mpr hk
      simp [List.lookup, hb])
